import Mathlib

/-!
Verification of the SelectSpatialSpots annotation engine (src/app.py).

The file shallowly embeds the engine: the palettes and groups table, CSV
parsing (parse_csv), the palette-swap reconciliation (update_palette), the
selection reconciler (assign_groups), the figure assembly (build_figure),
the export projection (export_csv) and the callback-level state updates
(handle_csv and the store wiring).  Machine floats are modelled as exact
rationals; Python dicts as insertion-ordered association lists; a raised
exception inside a callback as an Option-valued result whose none leaves
the stores unchanged.  Theorems about the embedded definitions settle the
specification's claims.
-/

namespace SpatialSpots

/-- Color list of the Set3 palette (PALETTES in app.py). -/
def Set3 : List String :=
  ["#8DD3C7", "#FFFFB3", "#BEBADA", "#FB8072", "#80B1D3",
   "#FDB462", "#B3DE69", "#FCCDE5", "#D9D9D9", "#BC80BD"]

/-- Color list of the Paired palette (PALETTES in app.py). -/
def Paired : List String :=
  ["#A6CEE3", "#1F78B4", "#B2DF8A", "#33A02C", "#FB9A99",
   "#E31A1C", "#FDBF6F", "#FF7F00", "#CAB2D6", "#6A3D9A"]

/-- Color list of the Tableau10 palette (PALETTES in app.py). -/
def Tableau10 : List String :=
  ["#4E79A7", "#F28E2B", "#E15759", "#76B7B2", "#59A14F",
   "#EDC948", "#B07AA1", "#FF9DA7", "#9C755F", "#BAB0AC"]

/-- The PALETTES dict; none models the KeyError raised for an unknown
scheme name. -/
def PALETTES (name : String) : Option (List String) :=
  if name = "Set3" then some Set3
  else if name = "Paired" then some Paired
  else if name = "Tableau10" then some Tableau10
  else none

/-- Sentinel color used for unassigned points (UNASSIGNED_COLOR in
app.py). -/
def UNASSIGNED_COLOR : String := "#A0A0A0"

/-- Number of rows of the initial groups table (DEFAULT_GROUPS in
app.py). -/
def DEFAULT_GROUPS : Nat := 10

/-- One row of the groups table: Group Name, Custom Name, Color. -/
structure GroupRow where
  groupName : String
  customName : String
  color : String
deriving DecidableEq

/-- make_groups: the ten initial rows, colored positionally from the chosen
palette (none models the IndexError for a palette shorter than ten). -/
def make_groups (palette : String) : Option (List GroupRow) :=
  (PALETTES palette).bind fun colors =>
    (List.range DEFAULT_GROUPS).mapM fun i =>
      (colors.get? i).map fun c =>
        { groupName := "Group " ++ toString (i + 1), customName := "", color := c }

/-- A raw CSV record: the textual fields of one line of the file. -/
abbrev RawRow := List String

/-- A tabular value as a pandas column holds it after read_csv type
inference: integer, floating point (modelled exactly as a rational), or
text. -/
inductive PyVal where
  | int (n : ℤ)
  | float (q : ℚ)
  | str (s : String)
deriving DecidableEq

/-- Value of a digit list read in base ten (0 when empty). -/
def digitsVal (cs : List Char) : Nat :=
  cs.foldl (fun a c => 10 * a + (c.toNat - 48)) 0

/-- Reads a nonempty all-digit list, none otherwise. -/
def parseNatDigits (cs : List Char) : Option Nat :=
  if cs.isEmpty then none
  else if cs.all Char.isDigit then some (digitsVal cs) else none

/-- Model of integer-literal recognition (Python int and the pandas int64
inference): an optional sign followed by at least one digit. -/
def parseIntLit (s : String) : Option ℤ :=
  match s.toList with
  | [] => none
  | c :: rest =>
    if c = '-' then (parseNatDigits rest).map fun n => -(n : ℤ)
    else if c = '+' then (parseNatDigits rest).map fun n => (n : ℤ)
    else (parseNatDigits (c :: rest)).map fun n => (n : ℤ)

/-- Unsigned decimal literal: digits, optionally a point and more digits,
with at least one digit overall. -/
def parseUnsignedFloat (cs : List Char) : Option ℚ :=
  let intPart := cs.takeWhile Char.isDigit
  let rest := cs.dropWhile Char.isDigit
  match rest with
  | [] => if intPart.isEmpty then none else some ((digitsVal intPart : ℚ))
  | '.' :: frac =>
    if frac.all Char.isDigit ∧ (intPart ≠ [] ∨ frac ≠ []) then
      some ((digitsVal intPart : ℚ) + (digitsVal frac : ℚ) / (10 : ℚ) ^ frac.length)
    else none
  | _ => none

/-- Model of float-literal recognition (the decimal forms occurring in CSV
coordinate fields). -/
def parseFloatLit (s : String) : Option ℚ :=
  match s.toList with
  | [] => none
  | c :: rest =>
    if c = '-' then (parseUnsignedFloat rest).map fun q => -q
    else if c = '+' then parseUnsignedFloat rest
    else parseUnsignedFloat (c :: rest)

/-- Model of the tabular collaborator's per-column dtype inference
(pandas read_csv): an all-integer column becomes int64, an otherwise
all-numeric column float64, and any other column stays text. -/
def inferColumn (vals : List String) : List PyVal :=
  if vals.all fun s => (parseIntLit s).isSome then
    vals.map fun s => PyVal.int ((parseIntLit s).getD 0)
  else if vals.all fun s => (parseFloatLit s).isSome then
    vals.map fun s => PyVal.float ((parseFloatLit s).getD 0)
  else vals.map PyVal.str

/-- Model of text coercion (astype str): integer cells print in decimal,
text passes through; the float case is an injective placeholder for Python
float formatting, which no claim observes. -/
def pyStr : PyVal → String
  | PyVal.int n => toString n
  | PyVal.float q => toString q.num ++ "/" ++ toString q.den
  | PyVal.str s => s

/-- Lowercasing as the dict comprehension applies it, written over the
character list (the library's own toLower is not kernel-reducible). -/
def lowerStr (s : String) : String :=
  String.mk (s.data.map Char.toLower)

/-- Column index that the dict of lowercased header names resolves for a
key: the last header entry whose lowercased name equals the key (later
entries overwrite earlier ones in the dict comprehension). -/
def resolveCol (header : List String) (key : String) : Option Nat :=
  (List.range header.length).foldl
    (fun acc i => if lowerStr (header.getD i "") = key then some i else acc) none

/-- The i-th column of a row list (missing fields read as empty text). -/
def column (rows : List RawRow) (i : Nat) : List String :=
  rows.map fun r => r.getD i ""

/-- One record of the parsed point table: textual id and the two
coordinate values. -/
structure CsvRecord where
  cellId : String
  x : PyVal
  y : PyVal
deriving DecidableEq

/-- Zips the three selected columns back into records (file order). -/
def zipRecords : List String → List PyVal → List PyVal → List CsvRecord
  | i :: is, x :: xs, y :: ys => { cellId := i, x := x, y := y } :: zipRecords is xs ys
  | _, _, _ => []

/-- parse_csv: take the first line as the header (or the canonical names
when headerless), resolve the three required columns case-insensitively,
keep only them in canonical order, and coerce the id column to text.  The
only failure is the missing-column schema error. -/
def parse_csv (lines : List RawRow) (has_header : Bool) : Except String (List CsvRecord) :=
  let hdr := if has_header then lines.headD [] else ["Cell_ID", "X", "Y"]
  let rows := if has_header then lines.tail else lines
  match resolveCol hdr "cell_id", resolveCol hdr "x", resolveCol hdr "y" with
  | some ci, some xi, some yi =>
    Except.ok (zipRecords ((inferColumn (column rows ci)).map pyStr)
      (inferColumn (column rows xi)) (inferColumn (column rows yi)))
  | _, _, _ => Except.error "CSV must contain Cell_ID, X, Y"

/-- Value stored in the assignment store for one point id: Group, Custom,
Color — the snapshot taken from the active row at assignment time. -/
structure AssignInfo where
  group : String
  custom : String
  color : String
deriving DecidableEq

/-- The assignment store: an insertion-ordered dict from point id to its
assignment. -/
abbrev AssignMap := List (String × AssignInfo)

/-- Dict lookup by key. -/
def lookupA : AssignMap → String → Option AssignInfo
  | [], _ => none
  | (k0, v0) :: rest, k => if k0 = k then some v0 else lookupA rest k

/-- Dict update: replace the value at an existing key in place (keeping
insertion order), else append the new entry at the end. -/
def setKey : AssignMap → String → AssignInfo → AssignMap
  | [], k, v => [(k, v)]
  | (k0, v0) :: rest, k, v =>
    if k0 = k then (k, v) :: rest else (k0, v0) :: setKey rest k v

/-- A point as the figure and the export consume it: text id plus numeric
coordinates. -/
structure Spot where
  id : String
  x : ℚ
  y : ℚ
deriving DecidableEq

/-- Numeric view of a tabular value. -/
def PyVal.toQ : PyVal → Option ℚ
  | PyVal.int n => some ((n : ℚ))
  | PyVal.float q => some q
  | PyVal.str _ => none

/-- Numeric view of a parsed table; some exactly when every coordinate is
numeric (the only tables the figure and export stages are fed in the
claims). -/
def toSpots (df : List CsvRecord) : Option (List Spot) :=
  df.mapM fun r => r.x.toQ.bind fun x => r.y.toQ.map fun y =>
    { id := r.cellId, x := x, y := y }

/-- Decoded background-image metadata: the data url and the natural pixel
size (decode_image in app.py). -/
structure ImgMeta where
  source : String
  natW : ℚ
  natH : ℚ
deriving DecidableEq

/-- One layout image of the assembled figure. -/
structure LayoutImage where
  source : String
  x : ℚ
  y : ℚ
  sizex : ℚ
  sizey : ℚ
  opacity : ℚ
  layer : String
deriving DecidableEq

/-- The renderable scene that build_figure assembles. -/
structure Figure where
  hasTrace : Bool
  colors : List String
  hovertext : List String
  customdata : List String
  xrange : ℚ × ℚ
  yrange : ℚ × ℚ
  images : List LayoutImage
deriving DecidableEq

/-- Python truthiness of an optional string (None and the empty string are
falsy). -/
def truthyOptStr : Option String → Bool
  | none => false
  | some s => !s.isEmpty

/-- Display color of one point in build_figure: its assignment's color when
the (truthy) assign_map holds its id, else the unassigned sentinel. -/
def displayColor (m : AssignMap) (cid : String) : String :=
  if m.isEmpty then "#A0A0A0"
  else
    match lookupA m cid with
    | some info => info.color
    | none => "#A0A0A0"

/-- Hover label of one point in build_figure. -/
def hoverFor (m : AssignMap) (cid : String) : String :=
  if m.isEmpty then "Cell: " ++ cid ++ "<br>Group: "
  else
    match lookupA m cid with
    | some info =>
      "Cell: " ++ cid ++ "<br>Group: " ++ info.group ++ "<br>Custom: " ++ info.custom
    | none => "Cell: " ++ cid ++ "<br>Group: "

/-- The background-image block shared by both branches of build_figure: one
layout image, drawn below the points, whenever bg_image and img_meta are
truthy — the scale parameter is not inspected. -/
def imageLayers (bg : Option String) (meta : Option ImgMeta) (xr yr : ℚ × ℚ)
    (xPct yPct scale opacity : ℚ) : List LayoutImage :=
  match bg, meta with
  | some src, some m =>
    if src.isEmpty then []
    else
      [{ source := src,
         x := xr.1 + (xr.2 - xr.1) * xPct / 100,
         y := yr.1 + (yr.2 - yr.1) * yPct / 100,
         sizex := (xr.2 - xr.1) * scale,
         sizey := (xr.2 - xr.1) * scale * (m.natH / m.natW),
         opacity := opacity, layer := "below" }]
  | _, _ => []

/-- build_figure: the empty default scene (a 0..100 base box padded by 5%)
when no table is loaded, else one marker trace over the raw point extents
padded by 5% of each span, plus the optional background image. -/
def build_figure (df : Option (List Spot)) (assign_map : AssignMap) (point_size : ℚ)
    (bg_image : Option String) (img_meta : Option ImgMeta)
    (img_x_pct img_y_pct img_scale img_opacity : ℚ) : Figure :=
  match df with
  | none =>
    let xr : ℚ × ℚ := (0 - 0.05 * 100, 100 + 0.05 * 100)
    let yr : ℚ × ℚ := (0 - 0.05 * 100, 100 + 0.05 * 100)
    { hasTrace := false, colors := [], hovertext := [], customdata := [],
      xrange := xr, yrange := yr,
      images := imageLayers bg_image img_meta xr yr img_x_pct img_y_pct img_scale img_opacity }
  | some [] =>
    let xr : ℚ × ℚ := (0 - 0.05 * 100, 100 + 0.05 * 100)
    let yr : ℚ × ℚ := (0 - 0.05 * 100, 100 + 0.05 * 100)
    { hasTrace := false, colors := [], hovertext := [], customdata := [],
      xrange := xr, yrange := yr,
      images := imageLayers bg_image img_meta xr yr img_x_pct img_y_pct img_scale img_opacity }
  | some (s :: rest) =>
    let pts := s :: rest
    let xmin := rest.foldl (fun a t => min a t.x) s.x
    let xmax := rest.foldl (fun a t => max a t.x) s.x
    let ymin := rest.foldl (fun a t => min a t.y) s.y
    let ymax := rest.foldl (fun a t => max a t.y) s.y
    let dx := xmax - xmin
    let dy := ymax - ymin
    let xr := (xmin - 0.05 * dx, xmax + 0.05 * dx)
    let yr := (ymin - 0.05 * dy, ymax + 0.05 * dy)
    { hasTrace := true,
      colors := pts.map fun t => displayColor assign_map t.id,
      hovertext := pts.map fun t => hoverFor assign_map t.id,
      customdata := pts.map Spot.id,
      xrange := xr, yrange := yr,
      images := imageLayers bg_image img_meta xr yr img_x_pct img_y_pct img_scale img_opacity }

/-- The render callback update_plot: a None df-store renders the empty
default figure with an empty assign_map, else the stored records with the
stored assign_map (or an empty dict). -/
def update_plot (dfrec : Option (List Spot)) (assign_map : Option AssignMap)
    (point_size : ℚ) (bg : Option String) (meta : Option ImgMeta)
    (img_x img_y img_scale img_opacity : ℚ) : Figure :=
  match dfrec with
  | none => build_figure none [] point_size bg meta img_x img_y img_scale img_opacity
  | some df =>
    build_figure (some df) (assign_map.getD []) point_size bg meta img_x img_y img_scale img_opacity

/-- Splitting a character list at whitespace, dropping empty pieces; the
accumulator holds the current token reversed. -/
def splitWsAux : List Char → List Char → List (List Char)
  | [], acc => if acc.isEmpty then [] else [acc.reverse]
  | c :: cs, acc =>
    if c.isWhitespace then
      if acc.isEmpty then splitWsAux cs [] else acc.reverse :: splitWsAux cs []
    else splitWsAux cs (c :: acc)

/-- Python str.split(): whitespace-separated tokens, empties dropped. -/
def pySplit (s : String) : List String :=
  (splitWsAux s.data []).map String.mk

/-- Index the palette swap derives for an assignment: the integer parsed
from the last whitespace token of the stored group name, minus one (none
models the exception when the token is not an integer literal or the name
has no tokens). -/
def groupIndex (g : String) : Option ℤ :=
  (pySplit g).getLast?.bind fun t => (parseIntLit t).map fun n => n - 1

/-- The row-recoloring loop of update_palette: row i gets scheme color i
with no modulo wrap (none models the IndexError when the scheme runs
out). -/
def reColorRows (colors : List String) : List GroupRow → Nat → Option (List GroupRow)
  | [], _ => some []
  | r :: rs, i =>
    (colors.get? i).bind fun c =>
      (reColorRows colors rs (i + 1)).map fun rest =>
        { groupName := r.groupName, customName := r.customName, color := c } :: rest

/-- The assignment-recoloring loop of update_palette: each entry keeps its
group and custom fields and takes the scheme color at the index parsed
from its group name, modulo the scheme length. -/
def recolorMap (colors : List String) : AssignMap → Option AssignMap
  | [] => some []
  | (cid, info) :: rest =>
    (groupIndex info.group).bind fun idx =>
      (colors.get? (Int.toNat (idx % (colors.length : ℤ)))).bind fun c =>
        (recolorMap colors rest).map fun tail =>
          (cid, { group := info.group, custom := info.custom, color := c }) :: tail

/-- update_palette callback: recolor the table rows positionally from the
chosen scheme, then recolor each assignment at the index parsed from its
stored group name; none models a raised exception, after which no store is
updated. -/
def update_palette (palette : String) (rows : List GroupRow)
    (assign_map : Option AssignMap) : Option (List GroupRow × Option AssignMap) :=
  match PALETTES palette with
  | none => none
  | some colors =>
    match reColorRows colors rows 0 with
    | none => none
    | some newRows =>
      match assign_map with
      | none => some (newRows, none)
      | some m =>
        if m.isEmpty then some (newRows, some m)
        else
          match recolorMap colors m with
          | none => none
          | some m2 => some (newRows, some m2)

/-- assign_groups callback: with a truthy selection and a selected table
row, upsert every selected id to a snapshot of that row; otherwise (no
selection, or no selected row) return the store unchanged.  The selected
ids are the customdata strings of the trace; an out-of-range row index
(impossible through the UI) is modelled as the unchanged store, matching
the no-update effect of a raised exception. -/
def assign_groups (selected : Option (List String)) (sel_rows : Option (List Nat))
    (rows : List GroupRow) (assign_map : Option AssignMap) : Option AssignMap :=
  match selected, sel_rows with
  | some pts, some (idx :: _) =>
    match rows.get? idx with
    | some row =>
      some (pts.foldl
        (fun m cid => setKey m cid
          { group := row.groupName, custom := row.customName, color := row.color })
        (assign_map.getD []))
    | none => assign_map
  | _, _ => assign_map

/-- One row of the exported table. -/
structure ExportRow where
  cellId : String
  group : String
  customName : String
  color : String
deriving DecidableEq

/-- The Group to Custom Name dict built at export time from the current
groups table (later duplicate names overwrite earlier ones). -/
def groupToCustom (groups : List GroupRow) (g : String) : Option String :=
  groups.foldl (fun acc row => if row.groupName = g then some row.customName else acc) none

/-- Python truthiness of the optional assignment store (None and the empty
dict are falsy). -/
def truthyMap : Option AssignMap → Bool
  | none => false
  | some m => !m.isEmpty

/-- One export row for a point id: the assignment's group and color plus
the custom label resolved from the current groups table, else the
unassigned row. -/
def exportRowFor (assign_map : Option AssignMap) (groups : List GroupRow)
    (cid : String) : ExportRow :=
  if truthyMap assign_map then
    match lookupA (assign_map.getD []) cid with
    | some info =>
      { cellId := cid, group := info.group,
        customName := (groupToCustom groups info.group).getD "", color := info.color }
    | none => { cellId := cid, group := "", customName := "", color := UNASSIGNED_COLOR }
  else { cellId := cid, group := "", customName := "", color := UNASSIGNED_COLOR }

/-- export_csv callback: withheld (None) when the df-store is falsy, else
one row per point in table order. -/
def export_csv (assign_map : Option AssignMap) (dfrec : Option (List Spot))
    (groups_data : List GroupRow) : Option (List ExportRow) :=
  match dfrec with
  | none => none
  | some [] => none
  | some df => some (df.map fun s => exportRowFor assign_map groups_data s.id)

/-- handle_csv callback: its two outputs are the new df-store value and the
status message.  A parse failure clears the df-store (the callback returns
None for it) and reports the error text. -/
def handle_csv (contents : Option (List RawRow)) (has_header : Bool) :
    Option (List CsvRecord) × String :=
  match contents with
  | none => (none, "")
  | some lines =>
    match parse_csv lines has_header with
    | Except.ok df => (some df, "")
    | Except.error e => (none, "CSV error: " ++ e)

/-- The session's stores and widget state that the modelled callbacks read
and write. -/
structure AppState where
  dfStore : Option (List CsvRecord)
  assignStore : Option AssignMap
  groupsTable : List GroupRow
  paletteChoice : String
  statusMsg : String
deriving DecidableEq

/-- Applying the upload-CSV callback to the session: its declared outputs
are the df-store and the status message, and nothing else. -/
def onCsvUpload (s : AppState) (contents : Option (List RawRow)) (has_header : Bool) :
    AppState :=
  { s with dfStore := (handle_csv contents has_header).1,
           statusMsg := (handle_csv contents has_header).2 }

/-- Applying the selection callback to the session: its only declared
output is the assign-store. -/
def onSelection (s : AppState) (selected : Option (List String))
    (sel_rows : Option (List Nat)) : AppState :=
  { s with assignStore := assign_groups selected sel_rows s.groupsTable s.assignStore }

instance : DecidableEq (Except String (List CsvRecord)) := fun x y =>
  match x, y with
  | Except.ok a, Except.ok b =>
    if h : a = b then isTrue (by rw [h]) else isFalse (fun he => by cases he; exact h rfl)
  | Except.error a, Except.error b =>
    if h : a = b then isTrue (by rw [h]) else isFalse (fun he => by cases he; exact h rfl)
  | Except.ok a, Except.error b => isFalse (fun he => by cases he)
  | Except.error a, Except.ok b => isFalse (fun he => by cases he)

theorem lookupA_setKey (m : AssignMap) (k : String) (v : AssignInfo) (q : String) :
    lookupA (setKey m k v) q = if q = k then some v else lookupA m q := by
  induction m with
  | nil =>
    simp only [setKey, lookupA]
    rcases eq_or_ne k q with h | h
    · subst h; simp
    · simp [h, Ne.symm h]
  | cons hd tl ih =>
    obtain ⟨k0, v0⟩ := hd
    simp only [setKey]
    by_cases h0 : k0 = k
    · subst h0
      simp only [if_pos rfl, lookupA]
      rcases eq_or_ne k0 q with h | h
      · subst h; simp
      · simp [h, Ne.symm h]
    · simp only [if_neg h0, lookupA, ih]
      by_cases h1 : k0 = q <;> by_cases h2 : q = k
      · exact absurd (h1.trans h2) h0
      · simp [h1, h2]
      · simp [h1, h2, h0]
      · simp [h1, h2]

theorem lookupA_assign_foldl (S : List String) (v : AssignInfo) (m0 : AssignMap)
    (q : String) :
    lookupA (S.foldl (fun m cid => setKey m cid v) m0) q =
      if q ∈ S then some v else lookupA m0 q := by
  induction S generalizing m0 with
  | nil => simp
  | cons c S ih =>
    simp only [List.foldl_cons, ih, lookupA_setKey, List.mem_cons]
    by_cases h1 : q ∈ S <;> by_cases h2 : q = c <;> simp [h1, h2]

theorem lookupA_isSome_ne_nil {m : AssignMap} {q : String} {v : AssignInfo}
    (h : lookupA m q = some v) : m ≠ [] := by
  cases m with
  | nil => simp [lookupA] at h
  | cons a l => simp

theorem isEmpty_eq_false_of_ne_nil {m : AssignMap} (h : m ≠ []) : m.isEmpty = false := by
  cases m with
  | nil => exact absurd rfl h
  | cons a l => rfl

theorem assign_groups_some (S : List String) (idx : Nat) (rows : List GroupRow)
    (G : GroupRow) (m0 : Option AssignMap) (h : rows.get? idx = some G) :
    assign_groups (some S) (some [idx]) rows m0 =
      some (S.foldl
        (fun m cid => setKey m cid
          { group := G.groupName, custom := G.customName, color := G.color })
        (m0.getD [])) := by
  have hstep : assign_groups (some S) (some [idx]) rows m0 =
      match rows.get? idx with
      | some row =>
        some (S.foldl
          (fun m cid => setKey m cid
            { group := row.groupName, custom := row.customName, color := row.color })
          (m0.getD []))
      | none => m0 := rfl
  rw [hstep, h]

theorem reColorRows_get (colors : List String) :
    ∀ (rows out : List GroupRow) (i : Nat),
      reColorRows colors rows i = some out →
      ∀ j r, rows.get? j = some r →
        out.get? j = (colors.get? (i + j)).map fun c =>
          { groupName := r.groupName, customName := r.customName, color := c } := by
  intro rows
  induction rows with
  | nil =>
    intro out i h j r hj
    simp at hj
  | cons r0 rs ih =>
    intro out i h j r hj
    simp only [reColorRows] at h
    rcases hc : colors.get? i with _ | c
    · rw [hc] at h
      simp at h
    · rw [hc] at h
      simp only [Option.some_bind] at h
      rcases hrest : reColorRows colors rs (i + 1) with _ | rest
      · rw [hrest] at h
        simp at h
      · rw [hrest] at h
        simp only [Option.map_some'] at h
        obtain rfl :
            ({ groupName := r0.groupName, customName := r0.customName, color := c }
              :: rest) = out := Option.some.inj h
        cases j with
        | zero =>
          obtain rfl : r0 = r := Option.some.inj hj
          simp only [List.get?_cons_zero, Nat.add_zero, hc, Option.map_some']
        | succ jj =>
          have harith : i + (jj + 1) = (i + 1) + jj := by omega
          rw [harith]
          exact ih rest (i + 1) hrest jj r hj

theorem recolorMap_get (colors : List String) :
    ∀ (m out : AssignMap),
      recolorMap colors m = some out →
      ∀ k cid info, m.get? k = some (cid, info) →
        out.get? k = (groupIndex info.group).bind fun n =>
          (colors.get? (Int.toNat (n % (colors.length : ℤ)))).map fun c =>
            (cid, { group := info.group, custom := info.custom, color := c }) := by
  intro m
  induction m with
  | nil =>
    intro out h k cid info hk
    simp at hk
  | cons e rest ih =>
    intro out h k cid info hk
    obtain ⟨cid0, info0⟩ := e
    simp only [recolorMap] at h
    rcases hg : groupIndex info0.group with _ | n
    · rw [hg] at h
      simp at h
    · rw [hg] at h
      simp only [Option.some_bind] at h
      rcases hc : colors.get? (Int.toNat (n % (colors.length : ℤ))) with _ | c
      · rw [hc] at h
        simp at h
      · rw [hc] at h
        simp only [Option.some_bind] at h
        rcases ht : recolorMap colors rest with _ | tail
        · rw [ht] at h
          simp at h
        · rw [ht] at h
          simp only [Option.map_some'] at h
          obtain rfl :
              ((cid0, { group := info0.group, custom := info0.custom, color := c })
                :: tail) = out := Option.some.inj h
          cases k with
          | zero =>
            have he : (cid0, info0) = (cid, info) := Option.some.inj hk
            injection he with h1 h2
            subst h1
            subst h2
            simp only [List.get?_cons_zero, hg, Option.some_bind, hc, Option.map_some']
          | succ kk => exact ih tail ht kk cid info hk

theorem exportRowFor_assigned {m : AssignMap} {q : String} {info : AssignInfo}
    (groups : List GroupRow) (h : lookupA m q = some info) :
    exportRowFor (some m) groups q =
      { cellId := q, group := info.group,
        customName := (groupToCustom groups info.group).getD "", color := info.color } := by
  have hne : m.isEmpty = false := isEmpty_eq_false_of_ne_nil (lookupA_isSome_ne_nil h)
  simp [exportRowFor, truthyMap, hne, h]

theorem exportRowFor_unassigned {m : AssignMap} {q : String}
    (groups : List GroupRow) (h : lookupA m q = none) :
    exportRowFor (some m) groups q =
      { cellId := q, group := "", customName := "", color := UNASSIGNED_COLOR } := by
  cases m with
  | nil => simp [exportRowFor, truthyMap]
  | cons a l => simp [exportRowFor, truthyMap, h]

theorem displayColor_assigned {m : AssignMap} {q : String} {info : AssignInfo}
    (h : lookupA m q = some info) : displayColor m q = info.color := by
  have hne : m.isEmpty = false := isEmpty_eq_false_of_ne_nil (lookupA_isSome_ne_nil h)
  simp [displayColor, hne, h]

theorem export_csv_cons (m : Option AssignMap) (s : Spot) (rest : List Spot)
    (groups : List GroupRow) :
    export_csv m (some (s :: rest)) groups =
      some ((s :: rest).map fun t => exportRowFor m groups t.id) := rfl

theorem build_figure_colors_cons (s : Spot) (rest : List Spot) (m : AssignMap)
    (ps : ℚ) (bg : Option String) (meta : Option ImgMeta) (a b c d : ℚ) :
    (build_figure (some (s :: rest)) m ps bg meta a b c d).colors =
      (s :: rest).map fun t => displayColor m t.id := rfl

theorem build_figure_customdata_cons (s : Spot) (rest : List Spot) (m : AssignMap)
    (ps : ℚ) (bg : Option String) (meta : Option ImgMeta) (a b c d : ℚ) :
    (build_figure (some (s :: rest)) m ps bg meta a b c d).customdata =
      (s :: rest).map Spot.id := rfl

theorem column_map3_zero (rows : List RawRow) (f g h : RawRow → String) :
    column (rows.map fun r => [f r, g r, h r]) 0 = rows.map f := by
  simp [column, List.map_map, List.getD_cons_zero]

theorem column_map3_one (rows : List RawRow) (f g h : RawRow → String) :
    column (rows.map fun r => [f r, g r, h r]) 1 = rows.map g := by
  simp [column, List.map_map, List.getD_cons_zero, List.getD_cons_succ]

theorem column_map3_two (rows : List RawRow) (f g h : RawRow → String) :
    column (rows.map fun r => [f r, g r, h r]) 2 = rows.map h := by
  simp [column, List.map_map, List.getD_cons_zero, List.getD_cons_succ]

/-- C7: parsing a CSV whose required columns appear under any letter case
and in any position, possibly among extra columns, yields the same
PointSet, record for record, as parsing the canonical Cell_ID,X,Y table
holding the same three columns. -/
theorem C7_header_case_order_insensitive (hdr : RawRow) (rows : List RawRow)
    (ci xi yi : Nat)
    (hc : resolveCol hdr "cell_id" = some ci)
    (hx : resolveCol hdr "x" = some xi)
    (hy : resolveCol hdr "y" = some yi) :
    parse_csv (hdr :: rows) true =
      parse_csv (["Cell_ID", "X", "Y"]
        :: rows.map fun r => [r.getD ci "", r.getD xi "", r.getD yi ""]) true := by
  have h0 : resolveCol ["Cell_ID", "X", "Y"] "cell_id" = some 0 := by decide
  have h1 : resolveCol ["Cell_ID", "X", "Y"] "x" = some 1 := by decide
  have h2 : resolveCol ["Cell_ID", "X", "Y"] "y" = some 2 := by decide
  simp [parse_csv, hc, hx, hy, h0, h1, h2, column, List.map_map, Function.comp_def,
    List.getD_cons_zero, List.getD_cons_succ, List.getElem?_cons_zero,
    List.getElem?_cons_succ]

/-- Witness for C7: a header with an extra column, scrambled order and
mixed case parses identically to its canonical projection. -/
theorem C7_header_case_order_insensitive_witness :
    resolveCol ["extra", "y", "CELL_id", "X"] "cell_id" = some 2 ∧
    parse_csv [["extra", "y", "CELL_id", "X"], ["z", "2", "a", "1"], ["w", "4", "b", "3"]] true =
      parse_csv (["Cell_ID", "X", "Y"]
        :: ([["z", "2", "a", "1"], ["w", "4", "b", "3"]] : List RawRow).map
          fun r => [r.getD 2 "", r.getD 3 "", r.getD 1 ""]) true :=
  ⟨by decide, C7_header_case_order_insensitive ["extra", "y", "CELL_id", "X"]
    [["z", "2", "a", "1"], ["w", "4", "b", "3"]] 2 3 1 (by decide) (by decide) (by decide)⟩

/-- C4 (amended): parse_csv coerces the id column to text, but applies no
numeric coercion at all to X and Y: whenever the three required columns
resolve, parsing succeeds with the coordinate columns exactly as the
tabular collaborator inferred them, so a non-numeric X or Y value does not
abort the load. -/
theorem C4_no_numeric_coercion (hdr : RawRow) (rows : List RawRow) (ci xi yi : Nat)
    (hc : resolveCol hdr "cell_id" = some ci)
    (hx : resolveCol hdr "x" = some xi)
    (hy : resolveCol hdr "y" = some yi) :
    parse_csv (hdr :: rows) true =
      Except.ok (zipRecords ((inferColumn (column rows ci)).map pyStr)
        (inferColumn (column rows xi)) (inferColumn (column rows yi))) := by
  simp [parse_csv, hc, hx, hy]

/-- Witness for C4 at a table whose X field is the non-numeric text abc:
the parse still succeeds. -/
theorem C4_no_numeric_coercion_witness :
    resolveCol ["Cell_ID", "X", "Y"] "x" = some 1 ∧
    parse_csv [["Cell_ID", "X", "Y"], ["a", "abc", "2"]] true =
      Except.ok (zipRecords
        ((inferColumn (column [["a", "abc", "2"]] 0)).map pyStr)
        (inferColumn (column [["a", "abc", "2"]] 1))
        (inferColumn (column [["a", "abc", "2"]] 2))) :=
  ⟨by decide, C4_no_numeric_coercion ["Cell_ID", "X", "Y"] [["a", "abc", "2"]] 0 1 2
    (by decide) (by decide) (by decide)⟩

/-- C4 counterexample: an input with the non-numeric X value abc does not
fail with a ParseError — the load succeeds and the produced record keeps
the textual coordinate instead of a float. -/
theorem C4_counterexample :
    parse_csv [["Cell_ID", "X", "Y"], ["a", "abc", "2"]] true =
      Except.ok [{ cellId := "a", x := PyVal.str "abc", y := PyVal.int 2 }] := by
  decide

/-- C1 (amended): a failed CSV import leaves the assignment store, groups
table and palette choice unchanged, but clears the df-store (the callback
returns None for it) and writes the error text to the status message — so
a subsequent render or export sees an empty point set, not the prior
one. -/
theorem C1_failed_import_state (s : AppState) (lines : List RawRow) (hh : Bool)
    (e : String) (hfail : parse_csv lines hh = Except.error e) :
    (onCsvUpload s (some lines) hh).assignStore = s.assignStore ∧
    (onCsvUpload s (some lines) hh).groupsTable = s.groupsTable ∧
    (onCsvUpload s (some lines) hh).paletteChoice = s.paletteChoice ∧
    (onCsvUpload s (some lines) hh).dfStore = none ∧
    (onCsvUpload s (some lines) hh).statusMsg = "CSV error: " ++ e := by
  simp [onCsvUpload, handle_csv, hfail]

/-- Witness for C1 at a concrete prior state and a schema-failing file. -/
theorem C1_failed_import_state_witness :
    parse_csv [["Cell_ID", "X"], ["a", "1"]] true =
      Except.error "CSV must contain Cell_ID, X, Y" ∧
    (onCsvUpload
      { dfStore := some [{ cellId := "a", x := PyVal.int 1, y := PyVal.int 2 }],
        assignStore := some [("a", { group := "Group 1", custom := "", color := "#4E79A7" })],
        groupsTable := [{ groupName := "Group 1", customName := "", color := "#4E79A7" }],
        paletteChoice := "Tableau10", statusMsg := "" }
      (some [["Cell_ID", "X"], ["a", "1"]]) true).dfStore = none ∧
    (onCsvUpload
      { dfStore := some [{ cellId := "a", x := PyVal.int 1, y := PyVal.int 2 }],
        assignStore := some [("a", { group := "Group 1", custom := "", color := "#4E79A7" })],
        groupsTable := [{ groupName := "Group 1", customName := "", color := "#4E79A7" }],
        paletteChoice := "Tableau10", statusMsg := "" }
      (some [["Cell_ID", "X"], ["a", "1"]]) true).assignStore =
      some [("a", { group := "Group 1", custom := "", color := "#4E79A7" })] := by
  obtain ⟨h1, h2, h3, h4, h5⟩ := C1_failed_import_state
    { dfStore := some [{ cellId := "a", x := PyVal.int 1, y := PyVal.int 2 }],
      assignStore := some [("a", { group := "Group 1", custom := "", color := "#4E79A7" })],
      groupsTable := [{ groupName := "Group 1", customName := "", color := "#4E79A7" }],
      paletteChoice := "Tableau10", statusMsg := "" }
    [["Cell_ID", "X"], ["a", "1"]] true "CSV must contain Cell_ID, X, Y" (by decide)
  exact ⟨by decide, h4, h1⟩

/-- C1 counterexample: after a schema-failing import the previously loaded
PointSet is not left as it was — the df-store is cleared, so the state a
subsequent render observes differs from the state before the import. -/
theorem C1_counterexample :
    (onCsvUpload
      { dfStore := some [{ cellId := "a", x := PyVal.int 1, y := PyVal.int 2 }],
        assignStore := none, groupsTable := [], paletteChoice := "Tableau10",
        statusMsg := "" }
      (some [["Cell_ID", "X"], ["a", "1"]]) true).dfStore = none ∧
    (onCsvUpload
      { dfStore := some [{ cellId := "a", x := PyVal.int 1, y := PyVal.int 2 }],
        assignStore := none, groupsTable := [], paletteChoice := "Tableau10",
        statusMsg := "" }
      (some [["Cell_ID", "X"], ["a", "1"]]) true).dfStore ≠
      some [{ cellId := "a", x := PyVal.int 1, y := PyVal.int 2 }] ∧
    (onCsvUpload
      { dfStore := some [{ cellId := "a", x := PyVal.int 1, y := PyVal.int 2 }],
        assignStore := none, groupsTable := [], paletteChoice := "Tableau10",
        statusMsg := "" }
      (some [["Cell_ID", "X"], ["a", "1"]]) true).statusMsg =
      "CSV error: CSV must contain Cell_ID, X, Y" := by
  decide

/-- C9 (amended): a selection made while no group row is selected is a
complete no-op — the assignment store, and with it the whole session
state including the status message, is returned unchanged; no
NoActiveGroupError notice is produced anywhere, since the callback's only
declared output is the assignment store. -/
theorem C9_no_active_group_noop (s : AppState) (selected : Option (List String)) :
    onSelection s selected none = s ∧ onSelection s selected (some []) = s := by
  constructor <;> cases selected <;> rfl

/-- C9 counterexample: a nonempty selection with no selected group row
leaves the entire state untouched and the status message empty — no
notice of any kind is reported to the caller. -/
theorem C9_counterexample :
    onSelection
      { dfStore := none,
        assignStore := some [("a", { group := "Group 1", custom := "", color := "#4E79A7" })],
        groupsTable := [{ groupName := "Group 1", customName := "", color := "#4E79A7" }],
        paletteChoice := "Tableau10", statusMsg := "" }
      (some ["a"]) none =
      { dfStore := none,
        assignStore := some [("a", { group := "Group 1", custom := "", color := "#4E79A7" })],
        groupsTable := [{ groupName := "Group 1", customName := "", color := "#4E79A7" }],
        paletteChoice := "Tableau10", statusMsg := "" } ∧
    (onSelection
      { dfStore := none,
        assignStore := some [("a", { group := "Group 1", custom := "", color := "#4E79A7" })],
        groupsTable := [{ groupName := "Group 1", customName := "", color := "#4E79A7" }],
        paletteChoice := "Tableau10", statusMsg := "" }
      (some ["a"]) none).statusMsg = "" := by
  exact ⟨rfl, rfl⟩

/-- C5: assigning a selection S to the active group G and exporting
immediately yields every selected id that occurs in the point table mapped
to G's name and color; every id outside S keeps exactly the assignment, or
unassigned status, it had before; and a selected id that already had an
assignment is overwritten unconditionally with G's snapshot. -/
theorem C5_assign_overwrite_then_export (S : List String) (idx : Nat)
    (rows : List GroupRow) (G : GroupRow) (m0 : Option AssignMap) (df : List Spot)
    (hG : rows.get? idx = some G) :
    ∃ m', assign_groups (some S) (some [idx]) rows m0 = some m' ∧
      (∀ q, q ∈ S → lookupA m' q =
        some { group := G.groupName, custom := G.customName, color := G.color }) ∧
      (∀ q, q ∉ S → lookupA m' q = lookupA (m0.getD []) q) ∧
      (∀ j s, df.get? j = some s → s.id ∈ S →
        ∃ er, ((export_csv (some m') (some df) rows).getD []).get? j = some er ∧
          er.cellId = s.id ∧ er.group = G.groupName ∧ er.color = G.color) := by
  refine ⟨_, assign_groups_some S idx rows G m0 hG, ?_, ?_, ?_⟩
  · intro q hq
    simp [lookupA_assign_foldl, hq]
  · intro q hq
    simp [lookupA_assign_foldl, hq]
  · intro j s hj hs
    have hlook : lookupA (S.foldl
        (fun m cid => setKey m cid
          { group := G.groupName, custom := G.customName, color := G.color })
        (m0.getD [])) s.id =
        some { group := G.groupName, custom := G.customName, color := G.color } := by
      simp [lookupA_assign_foldl, hs]
    cases df with
    | nil => simp at hj
    | cons a l =>
      refine ⟨{ cellId := s.id, group := G.groupName,
                customName := (groupToCustom rows G.groupName).getD "",
                color := G.color },
        ?_, rfl, rfl, rfl⟩
      rw [export_csv_cons, Option.getD_some, List.get?_map, hj, Option.map_some']
      simp [exportRowFor_assigned rows hlook]

/-- Witness for C5 at the specification's worked example: id A assigned to
group Alpha and exported; B stays unassigned. -/
theorem C5_assign_overwrite_then_export_witness :
    ∃ m', assign_groups (some ["A"]) (some [0])
        [{ groupName := "Alpha", customName := "", color := "#FF0000" }] none = some m' ∧
      lookupA m' "A" = some { group := "Alpha", custom := "", color := "#FF0000" } ∧
      lookupA m' "B" = none ∧
      ∃ er, ((export_csv (some m')
          (some [{ id := "A", x := 0, y := 0 }, { id := "B", x := 10, y := 0 },
                 { id := "C", x := 10, y := 10 }])
          [{ groupName := "Alpha", customName := "", color := "#FF0000" }]).getD []).get? 0 =
        some er ∧ er.cellId = "A" ∧ er.group = "Alpha" ∧ er.color = "#FF0000" := by
  obtain ⟨m', h1, h2, h3, h4⟩ := C5_assign_overwrite_then_export ["A"] 0
    [{ groupName := "Alpha", customName := "", color := "#FF0000" }]
    { groupName := "Alpha", customName := "", color := "#FF0000" } none
    [{ id := "A", x := 0, y := 0 }, { id := "B", x := 10, y := 0 },
     { id := "C", x := 10, y := 10 }] rfl
  refine ⟨m', h1, h2 "A" (by simp), ?_, h4 0 { id := "A", x := 0, y := 0 } rfl (by simp)⟩
  have hB := h3 "B" (by simp)
  simpa [lookupA] using hB

/-- C6: the export emits one row per point in point order; an assigned
point's row takes group and color from its assignment and its custom label
from the current groups-table row whose Group Name equals the assignment's
group name — the label snapshotted in the assignment is never consulted,
so a label rename before export shows the new label for assignments made
earlier; unassigned points get empty group and label and the sentinel
color. -/
theorem C6_export_current_labels (m : AssignMap) (df : List Spot)
    (groups : List GroupRow) (hdf : df ≠ []) :
    ∃ out, export_csv (some m) (some df) groups = some out ∧
      out.length = df.length ∧
      (∀ j s info, df.get? j = some s → lookupA m s.id = some info →
        out.get? j = some { cellId := s.id, group := info.group,
                            customName := (groupToCustom groups info.group).getD "",
                            color := info.color }) ∧
      (∀ j s, df.get? j = some s → lookupA m s.id = none →
        out.get? j = some { cellId := s.id, group := "", customName := "",
                            color := UNASSIGNED_COLOR }) := by
  cases df with
  | nil => exact absurd rfl hdf
  | cons a l =>
    refine ⟨_, export_csv_cons (some m) a l groups, by simp, ?_, ?_⟩
    · intro j s info hj hlook
      rw [List.get?_map, hj, Option.map_some']
      simp [exportRowFor_assigned groups hlook]
    · intro j s hj hlook
      rw [List.get?_map, hj, Option.map_some']
      simp [exportRowFor_unassigned groups hlook]

/-- Witness for C6: a point assigned while the row's label was OldLabel is
exported with the table's current label NewLabel after the rename. -/
theorem C6_export_current_labels_witness :
    ∃ out, export_csv
        (some [("p1", { group := "Group 1", custom := "OldLabel", color := "#4E79A7" })])
        (some [{ id := "p1", x := 0, y := 0 }])
        [{ groupName := "Group 1", customName := "NewLabel", color := "#4E79A7" }] =
        some out ∧
      out.get? 0 = some { cellId := "p1", group := "Group 1",
                          customName := "NewLabel", color := "#4E79A7" } := by
  obtain ⟨out, h1, h2, h3, h4⟩ := C6_export_current_labels
    [("p1", { group := "Group 1", custom := "OldLabel", color := "#4E79A7" })]
    [{ id := "p1", x := 0, y := 0 }]
    [{ groupName := "Group 1", customName := "NewLabel", color := "#4E79A7" }]
    (by simp)
  refine ⟨out, h1, ?_⟩
  have hrow := h3 0 { id := "p1", x := 0, y := 0 }
    { group := "Group 1", custom := "OldLabel", color := "#4E79A7" } rfl (by decide)
  simpa [groupToCustom] using hrow

/-- C10: all keys a selection writes into the store are the selected id
strings themselves; for every point of the table whose id was selected,
the assignment is found again at render time (its marker takes the group
color and its customdata is its id) and at export time (its row carries
the group's name and color) — string keys and string lookups always
agree. -/
theorem C10_key_lookup_consistency (df : List Spot) (S : List String) (idx : Nat)
    (rows : List GroupRow) (G : GroupRow) (m0 : Option AssignMap)
    (ps : ℚ) (bg : Option String) (meta : Option ImgMeta) (a b c d : ℚ)
    (hG : rows.get? idx = some G) :
    ∃ m', assign_groups (some S) (some [idx]) rows m0 = some m' ∧
      (∀ q, lookupA m' q ≠ lookupA (m0.getD []) q → q ∈ S) ∧
      (∀ j s, df.get? j = some s → s.id ∈ S →
        (build_figure (some df) m' ps bg meta a b c d).colors.get? j = some G.color ∧
        (build_figure (some df) m' ps bg meta a b c d).customdata.get? j = some s.id ∧
        ∃ er, ((export_csv (some m') (some df) rows).getD []).get? j = some er ∧
          er.group = G.groupName ∧ er.color = G.color) := by
  refine ⟨_, assign_groups_some S idx rows G m0 hG, ?_, ?_⟩
  · intro q hq
    by_contra hmem
    exact hq (by simp [lookupA_assign_foldl, hmem])
  · intro j s hj hs
    have hlook : lookupA (S.foldl
        (fun m cid => setKey m cid
          { group := G.groupName, custom := G.customName, color := G.color })
        (m0.getD [])) s.id =
        some { group := G.groupName, custom := G.customName, color := G.color } := by
      simp [lookupA_assign_foldl, hs]
    cases df with
    | nil => simp at hj
    | cons a0 l =>
      refine ⟨?_, ?_, ?_⟩
      · rw [build_figure_colors_cons, List.get?_map, hj, Option.map_some']
        simp [displayColor_assigned hlook]
      · rw [build_figure_customdata_cons, List.get?_map, hj, Option.map_some']
      · refine ⟨{ cellId := s.id, group := G.groupName,
                  customName := (groupToCustom rows G.groupName).getD "",
                  color := G.color },
          ?_, rfl, rfl⟩
        rw [export_csv_cons, Option.getD_some, List.get?_map, hj, Option.map_some']
        simp [exportRowFor_assigned rows hlook]

/-- Witness for C10 on a CSV with numeric ids: parse stores them as text,
a selection of the string id is found again by the renderer and the
export. -/
theorem C10_key_lookup_consistency_witness :
    parse_csv [["Cell_ID", "X", "Y"], ["7", "0", "0"], ["8", "1", "1"]] true =
      Except.ok [{ cellId := "7", x := PyVal.int 0, y := PyVal.int 0 },
                 { cellId := "8", x := PyVal.int 1, y := PyVal.int 1 }] ∧
    toSpots [{ cellId := "7", x := PyVal.int 0, y := PyVal.int 0 },
             { cellId := "8", x := PyVal.int 1, y := PyVal.int 1 }] =
      some [{ id := "7", x := 0, y := 0 }, { id := "8", x := 1, y := 1 }] ∧
    ∃ m', assign_groups (some ["7"]) (some [0])
        [{ groupName := "Group 1", customName := "", color := "#4E79A7" }] none = some m' ∧
      (build_figure (some [{ id := "7", x := 0, y := 0 }, { id := "8", x := 1, y := 1 }])
        m' 6 none none 50 50 0.5 0.6).colors.get? 0 = some "#4E79A7" ∧
      ∃ er, ((export_csv (some m')
          (some [{ id := "7", x := 0, y := 0 }, { id := "8", x := 1, y := 1 }])
          [{ groupName := "Group 1", customName := "", color := "#4E79A7" }]).getD []).get? 0 =
        some er ∧ er.group = "Group 1" ∧ er.color = "#4E79A7" := by
  refine ⟨by decide, by decide, ?_⟩
  obtain ⟨m', h1, h2, h3⟩ := C10_key_lookup_consistency
    [{ id := "7", x := 0, y := 0 }, { id := "8", x := 1, y := 1 }] ["7"] 0
    [{ groupName := "Group 1", customName := "", color := "#4E79A7" }]
    { groupName := "Group 1", customName := "", color := "#4E79A7" } none
    6 none none 50 50 0.5 0.6 rfl
  obtain ⟨hcol, hcust, her⟩ := h3 0 { id := "7", x := 0, y := 0 } rfl (by simp)
  exact ⟨m', h1, hcol, her⟩

/-- C2 (amended): on a palette swap, the table row at position j takes the
scheme color at j, with no modulo wrap for rows (the update raises and
changes nothing when the scheme has fewer colors than rows); every
assignment keeps its group name and custom label and takes the scheme
color at the index obtained by parsing the integer out of the last
whitespace token of its stored group name, minus one, modulo the scheme
length — the index is derived from the name text, the row is not located
by looking the name up in the table. -/
theorem C2_palette_swap_recolor (p : String) (colors : List String)
    (rows newRows : List GroupRow) (m m' : AssignMap)
    (hp : PALETTES p = some colors)
    (h : update_palette p rows (some m) = some (newRows, some m')) :
    (∀ j r, rows.get? j = some r →
      newRows.get? j = (colors.get? j).map fun c =>
        { groupName := r.groupName, customName := r.customName, color := c }) ∧
    (∀ k cid info, m.get? k = some (cid, info) →
      m'.get? k = (groupIndex info.group).bind fun n =>
        (colors.get? (Int.toNat (n % (colors.length : ℤ)))).map fun c =>
          (cid, { group := info.group, custom := info.custom, color := c })) := by
  simp only [update_palette, hp] at h
  rcases hrr : reColorRows colors rows 0 with _ | nr
  · rw [hrr] at h
    simp at h
  · rw [hrr] at h
    dsimp only at h
    by_cases hm : m.isEmpty
    · rw [if_pos hm] at h
      have hpair := Option.some.inj h
      have hr1 : nr = newRows := congrArg Prod.fst hpair
      have hr2 : m = m' := Option.some.inj (congrArg Prod.snd hpair)
      subst hr1
      subst hr2
      constructor
      · intro j r hj
        have hg := reColorRows_get colors rows nr 0 hrr j r hj
        simpa [Nat.zero_add] using hg
      · intro k cid info hk
        cases m with
        | nil => simp at hk
        | cons e rest => simp at hm
    · rw [if_neg hm] at h
      rcases hrm : recolorMap colors m with _ | m2
      · rw [hrm] at h
        simp at h
      · rw [hrm] at h
        dsimp only at h
        have hpair := Option.some.inj h
        have hr1 : nr = newRows := congrArg Prod.fst hpair
        have hr2 : m2 = m' := Option.some.inj (congrArg Prod.snd hpair)
        subst hr1
        subst hr2
        constructor
        · intro j r hj
          have hg := reColorRows_get colors rows nr 0 hrr j r hj
          simpa [Nat.zero_add] using hg
        · intro k cid info hk
          exact recolorMap_get colors m m2 hrm k cid info hk

/-- Witness for C2: a two-row table and one assignment referencing
Group 2, swapped to the Set3 scheme. -/
theorem C2_palette_swap_recolor_witness :
    PALETTES "Set3" = some Set3 ∧
    update_palette "Set3"
        [{ groupName := "Group 1", customName := "", color := "#4E79A7" },
         { groupName := "Group 2", customName := "", color := "#F28E2B" }]
        (some [("c1", { group := "Group 2", custom := "", color := "#F28E2B" })]) =
      some ([{ groupName := "Group 1", customName := "", color := "#8DD3C7" },
             { groupName := "Group 2", customName := "", color := "#FFFFB3" }],
            some [("c1", { group := "Group 2", custom := "", color := "#FFFFB3" })]) ∧
    ([("c1", { group := "Group 2", custom := "", color := "#FFFFB3" })] : AssignMap).get? 0 =
      (groupIndex "Group 2").bind fun n =>
        (Set3.get? (Int.toNat (n % (Set3.length : ℤ)))).map fun c =>
          ("c1", { group := "Group 2", custom := "", color := c }) := by
  refine ⟨by decide, by decide, ?_⟩
  obtain ⟨h1, h2⟩ := C2_palette_swap_recolor "Set3" Set3
    [{ groupName := "Group 1", customName := "", color := "#4E79A7" },
     { groupName := "Group 2", customName := "", color := "#F28E2B" }]
    [{ groupName := "Group 1", customName := "", color := "#8DD3C7" },
     { groupName := "Group 2", customName := "", color := "#FFFFB3" }]
    [("c1", { group := "Group 2", custom := "", color := "#F28E2B" })]
    [("c1", { group := "Group 2", custom := "", color := "#FFFFB3" })]
    (by decide) (by decide)
  exact h2 0 "c1" { group := "Group 2", custom := "", color := "#F28E2B" } rfl

/-- C2 counterexample: with the single row named Group 2 sitting at index
0, a swap to Set3 gives the row the scheme's color 0 but gives the
assignment referencing that very group the scheme's color 1 — the
assignment's color is derived from the digits in the name, not from the
row the name identifies, refuting name-as-join-key. -/
theorem C2_counterexample :
    update_palette "Set3" [{ groupName := "Group 2", customName := "", color := "#111111" }]
        (some [("c1", { group := "Group 2", custom := "", color := "#111111" })]) =
      some ([{ groupName := "Group 2", customName := "", color := "#8DD3C7" }],
            some [("c1", { group := "Group 2", custom := "", color := "#FFFFB3" })]) ∧
    Set3.get? 0 = some "#8DD3C7" ∧
    ("#FFFFB3" : String) ≠ "#8DD3C7" := by
  decide

/-- C3 (amended): the viewport has no degenerate-input fallback — for a
single point, padding the zero span by 5% leaves a zero-width and
zero-height box equal to the point itself (the point is contained, but the
box is degenerate, with no 1.0-extent unit box); only the no-data case
uses the fixed 0..100 default box, padded to -5..105 on both axes. -/
theorem C3_viewport_degenerate_single_point (i : String) (x y : ℚ) (m : AssignMap)
    (ps a b c d : ℚ) :
    (build_figure (some [{ id := i, x := x, y := y }]) m ps none none a b c d).xrange =
      (x, x) ∧
    (build_figure (some [{ id := i, x := x, y := y }]) m ps none none a b c d).yrange =
      (y, y) ∧
    (build_figure none m ps none none a b c d).xrange = (-5, 105) ∧
    (build_figure none m ps none none a b c d).yrange = (-5, 105) := by
  refine ⟨?_, ?_, ?_, ?_⟩ <;>
    simp [build_figure, Prod.ext_iff] <;> norm_num

/-- C3 counterexample: for the single point (5,5) the computed viewport
box has zero width and zero height — not the claimed nonzero extent, and
not a combined-extent-1.0 fallback box. -/
theorem C3_counterexample :
    ((build_figure (some [{ id := "a", x := 5, y := 5 }]) [] 6 none none 50 50 0.5 0.6).xrange.2 -
      (build_figure (some [{ id := "a", x := 5, y := 5 }]) [] 6 none none 50 50 0.5 0.6).xrange.1
        = 0) ∧
    ((build_figure (some [{ id := "a", x := 5, y := 5 }]) [] 6 none none 50 50 0.5 0.6).yrange.2 -
      (build_figure (some [{ id := "a", x := 5, y := 5 }]) [] 6 none none 50 50 0.5 0.6).yrange.1
        = 0) := by
  norm_num [build_figure]

theorem imageLayers_spec (bg : Option String) (meta : Option ImgMeta) (xr yr : ℚ × ℚ)
    (a b c d : ℚ) :
    (imageLayers bg meta xr yr a b c d).length =
      (if truthyOptStr bg && meta.isSome then 1 else 0) ∧
    (imageLayers bg meta xr yr a b c d).all (fun img => img.layer == "below") = true := by
  cases bg with
  | none => simp [imageLayers, truthyOptStr]
  | some src =>
    cases meta with
    | none => simp [imageLayers, truthyOptStr]
    | some mm =>
      by_cases hs : src.isEmpty <;> simp [imageLayers, truthyOptStr, hs]

/-- C8 (amended): the assembled figure contains no image layer exactly
when no image is loaded (image data missing or empty, or metadata
missing); whenever an image is loaded, exactly one image layer is
emitted, drawn below the point layer, regardless of the scale parameter —
a non-positive scale is not rejected. -/
theorem C8_image_layer_iff_loaded (df : Option (List Spot)) (m : AssignMap) (ps : ℚ)
    (bg : Option String) (meta : Option ImgMeta) (a b c d : ℚ) :
    (build_figure df m ps bg meta a b c d).images.length =
      (if truthyOptStr bg && meta.isSome then 1 else 0) ∧
    (build_figure df m ps bg meta a b c d).images.all
      (fun img => img.layer == "below") = true := by
  match df with
  | none => exact imageLayers_spec bg meta _ _ a b c d
  | some [] => exact imageLayers_spec bg meta _ _ a b c d
  | some (s :: rest) => exact imageLayers_spec bg meta _ _ a b c d

/-- C8 counterexample: with an image loaded and the non-positive scale -1
the figure still contains one image layer. -/
theorem C8_counterexample :
    (build_figure (some [{ id := "a", x := 0, y := 0 }, { id := "b", x := 10, y := 10 }])
      [] 6 (some "img") (some { source := "img", natW := 4, natH := 2 })
      50 50 (-1) 0.6).images.length = 1 ∧ ((-1 : ℚ) ≤ 0) := by
  exact ⟨by decide, by norm_num⟩

end SpatialSpots
